import Mathlib

/-!
# DFPlayer protocol engine (esphome/components/dfplayer)

A shallow embedding of `dfplayer.h`: the equalizer enumerations, the engine
state with its member initialisers, the inline members (`is_playing`, the
three-argument `send_cmd_`), the automation actions and the condition.

The definitions of `loop`, the two-argument `send_cmd_`, `start` and `pause`
live in the translation unit of the component, which is not part of the
sources at hand; they are modelled from the design document and marked so.
-/

namespace esphome
namespace dfplayer

/-! ## Constants and enumerations -/

/-- Capacity of the read buffer: `const size_t DFPLAYER_READ_BUFFER_LENGTH = 25`
("two messages + some extra"). -/
def DFPLAYER_READ_BUFFER_LENGTH : Nat := 25

/-- Modelled from the spec: the length in bytes of one wire frame (the header
does not name it; the design document fixes the frame at 10 bytes). -/
def FRAME_LENGTH : Nat := 10

/-- The enumeration `EqPreset` of the header, one constructor per enumerator. -/
inductive EqPreset where
  | NORMAL
  | POP
  | ROCK
  | JAZZ
  | CLASSIC
  | BASS
  deriving DecidableEq, Repr

/-- The numeric value of each `EqPreset` enumerator
(`NORMAL = 0, POP = 1, ROCK = 2, JAZZ = 3, CLASSIC = 4, BASS = 5`). -/
def EqPreset.toNat : EqPreset → Nat
  | .NORMAL => 0
  | .POP => 1
  | .ROCK => 2
  | .JAZZ => 3
  | .CLASSIC => 4
  | .BASS => 5

/-- All six enumerators of `EqPreset`, in declaration order. -/
def EqPreset.all : List EqPreset :=
  [.NORMAL, .POP, .ROCK, .JAZZ, .CLASSIC, .BASS]

/-- The table `EqReturn` of the header, read entry by entry
(`0 = NORMAL, 1 = POP, 2 = ROCK, 3 = JAZZ, 4 = CLASSIC, 5 = BASS`): the preset
name listed against an incoming report code, and nothing for any other code. -/
def EqReturn : Nat → Option EqPreset
  | 0 => some .NORMAL
  | 1 => some .POP
  | 2 => some .ROCK
  | 3 => some .JAZZ
  | 4 => some .CLASSIC
  | 5 => some .BASS
  | _ => none

/-- The enumeration `Device` of the header. -/
inductive Device where
  | USB
  | TF_CARD
  deriving DecidableEq, Repr

/-- The numeric value of each `Device` enumerator (`USB = 1, TF_CARD = 2`). -/
def Device.toNat : Device → Nat
  | .USB => 1
  | .TF_CARD => 2

/-! ## Engine state -/

/-- A C array `char a[n]`: exactly `n` elements. -/
abbrev CharArray (n : Nat) : Type := { l : List Nat // l.length = n }

/-- The data members of `class DFPlayer` that make up the protocol state
(`sent_cmd_`, `read_buffer_`, `read_pos_`, `is_playing_`,
`ack_set_is_playing_`, `ack_reset_is_playing_`). -/
structure DFPlayer where
  sent_cmd_ : Nat
  read_buffer_ : CharArray DFPLAYER_READ_BUFFER_LENGTH
  read_pos_ : Nat
  is_playing_ : Bool
  ack_set_is_playing_ : Bool
  ack_reset_is_playing_ : Bool
  deriving DecidableEq

/-- A freshly constructed engine: every member takes its default member
initialiser (`sent_cmd_{0}`, `read_pos_{0}`, `is_playing_{false}`,
`ack_set_is_playing_{false}`, `ack_reset_is_playing_{false}`); `read_buffer_`
has no initialiser, so its contents are whatever the storage held. -/
def DFPlayer.construct (storage : CharArray DFPLAYER_READ_BUFFER_LENGTH) : DFPlayer where
  sent_cmd_ := 0
  read_buffer_ := storage
  read_pos_ := 0
  is_playing_ := false
  ack_set_is_playing_ := false
  ack_reset_is_playing_ := false

/-- The member `bool is_playing() { return is_playing_; }`: the returned value
together with the state after the call. -/
def DFPlayer.is_playing (s : DFPlayer) : Bool × DFPlayer :=
  (s.is_playing_, s)

/-- The condition `DFPlayerIsPlayingCondition<Ts...>::check(Ts... x)`:
`return this->parent_->is_playing();`. The argument pack `x` is not used. -/
def DFPlayerIsPlayingCondition.check {Ts : Type} (parent : DFPlayer) (_x : Ts) :
    Bool × DFPlayer :=
  parent.is_playing

/-! ## Outbound commands declared inline in the header -/

/-- The high byte of a 16-bit argument (`argument >> 8` kept to one byte). -/
def arg_high (argument : Nat) : Nat := (argument / 256) % 256

/-- The low byte of a 16-bit argument. -/
def arg_low (argument : Nat) : Nat := argument % 256

/-- One call of the two-argument member
`send_cmd_(uint8_t cmd, uint16_t argument)`. -/
structure SendCmdCall where
  cmd : Nat
  argument : Nat
  deriving DecidableEq, Repr

/-- The inline three-argument overload
`send_cmd_(uint8_t cmd, uint16_t high, uint16_t low)`, whose body is
`this->send_cmd_(cmd, ((high & 0xFF) << 8) | (low & 0xFF));`.
The result is the sequence of calls it makes of the two-argument member; the
expression is converted to the `uint16_t` parameter (`% 65536`). -/
def send_cmd_high_low (cmd high low : Nat) : List SendCmdCall :=
  [⟨cmd, (((high &&& 0xFF) <<< 8) ||| (low &&& 0xFF)) % 65536⟩]

/-! ## Automation actions -/

/-- The members of `DFPlayer` that the play actions invoke on their parent. -/
inductive EngineCall where
  | play_file (file : Nat)
  | play_file_loop (file : Nat)
  | play_folder (folder file : Nat)
  | play_folder_loop (folder : Nat)
  deriving DecidableEq, Repr

/-- The class `PlayFileAction<Ts...>`. Each `TEMPLATABLE_VALUE(type, name)`
member is a value computed from the argument pack: `name_.value(x...)`. -/
structure PlayFileAction (Ts : Type) where
  file_ : Ts → Nat
  loop_ : Ts → Bool

/-- The member `PlayFileAction::play(Ts... x)`: the calls made on the parent. -/
def PlayFileAction.play {Ts : Type} (a : PlayFileAction Ts) (x : Ts) : List EngineCall :=
  let file := a.file_ x
  let loop := a.loop_ x
  if loop then
    [EngineCall.play_file_loop file]
  else
    [EngineCall.play_file file]

/-- The class `PlayFolderAction<Ts...>` with its three templatable values. -/
structure PlayFolderAction (Ts : Type) where
  folder_ : Ts → Nat
  file_ : Ts → Nat
  loop_ : Ts → Bool

/-- The member `PlayFolderAction::play(Ts... x)`: the calls made on the parent. -/
def PlayFolderAction.play {Ts : Type} (a : PlayFolderAction Ts) (x : Ts) : List EngineCall :=
  let folder := a.folder_ x
  let file := a.file_ x
  let loop := a.loop_ x
  if loop then
    [EngineCall.play_folder_loop folder]
  else
    [EngineCall.play_folder folder file]

/-! ## Event subscriptions: the declared payload types -/

/-- The four events a host can subscribe to. -/
inductive HostEvent where
  | finished_playback
  | track_query
  | volume_query
  | eq_query
  deriving DecidableEq, Repr

/-- Payload types of an event: those the callback signatures of the header use
(`void()` has no parameter; `uint16_t`; `str`) and those the design document
names besides (an 8-bit value, an `EqPreset`). -/
inductive PayloadType where
  | no_payload
  | uint8_t
  | uint16_t
  | EqPreset
  | str
  deriving DecidableEq, Repr

/-- Whether the number `v` is a value of the (unsigned integer) payload type. -/
def PayloadType.carries : PayloadType → Nat → Bool
  | .uint8_t, v => decide (v < 256)
  | .uint16_t, v => decide (v < 65536)
  | _, _ => false

/-- The parameter of the `std::function` accepted by `add_on_*_callback`:
`void()`, `void(uint16_t)`, `void(uint16_t)`, `void(uint16_t)`. -/
def registration_payload : HostEvent → PayloadType
  | .finished_playback => .no_payload
  | .track_query => .uint16_t
  | .volume_query => .uint16_t
  | .eq_query => .uint16_t

/-- The parameter of the `CallbackManager` member `on_*_callback_`:
`void()`, `void(uint16_t)`, `void(uint16_t)`, `void(str)`. -/
def observer_list_payload : HostEvent → PayloadType
  | .finished_playback => .no_payload
  | .track_query => .uint16_t
  | .volume_query => .uint16_t
  | .eq_query => .str

/-- The template argument of the `Trigger` base of the four trigger classes:
`Trigger<>`, `Trigger<uint16_t>`, `Trigger<uint16_t>`, `Trigger<uint16_t>`. -/
def trigger_payload : HostEvent → PayloadType
  | .finished_playback => .no_payload
  | .track_query => .uint16_t
  | .volume_query => .uint16_t
  | .eq_query => .uint16_t

/-! ## Frame codec -/

/-- Modelled from the spec: a decoded Frame (the translation unit that decodes
frames is missing); it carries the command byte, the feedback-flag byte and the
16-bit argument made of param-high and param-low. -/
structure Frame where
  command : Nat
  feedback : Nat
  argument : Nat
  deriving DecidableEq, Repr

/-- Modelled from the spec: the frame checksum (its code is missing),
`0x10000 - (version+length+command+feedback+arg_high+arg_low)` truncated to
16 bits. -/
def checksum (version length command feedback hi lo : Nat) : Nat :=
  (((0x10000 : Int) - ((version + length + command + feedback + hi + lo : Nat) : Int))
    % 0x10000).toNat

/-- Modelled from the spec: `encode(command, argument) -> bytes[10]` (its code,
in the body of the two-argument `send_cmd_`, is missing). Layout:
`start(0x7E) | version(0xFF) | length(0x06) | command | feedback-flag |
param-high | param-low | checksum-high | checksum-low | end(0xEF)`.
The feedback-flag byte chosen for the command is an argument. -/
def encode (feedback command argument : Nat) : List Nat :=
  let version := 0xFF
  let length := 0x06
  let cmd := command % 256
  let fb := feedback % 256
  let hi := arg_high argument
  let lo := arg_low argument
  let sum := checksum version length cmd fb hi lo
  [0x7E, version, length, cmd, fb, hi, lo, arg_high sum, arg_low sum, 0xEF]

/-- Modelled from the spec: `decode(bytes[10]) -> Frame | Invalid` (its code, in
`loop`, is missing): checks `start==0x7E`, `end==0xEF`, `version==0xFF`,
`length==0x06` and the recomputed checksum; any mismatch, or a span that is
not 10 bytes, is Invalid (`none`). -/
def decode (bytes : List Nat) : Option Frame :=
  match bytes with
  | [start, version, length, command, feedback, hi, lo, sum_hi, sum_lo, stop] =>
    if start = 0x7E ∧ stop = 0xEF ∧ version = 0xFF ∧ length = 0x06 ∧
        sum_hi * 256 + sum_lo = checksum version length command feedback hi lo then
      some ⟨command, feedback, hi * 256 + lo⟩
    else
      none
  | _ => none

/-- Modelled from the spec: the two-argument `send_cmd_(cmd, argument)`, declared
in the header and defined in the missing translation unit: the bytes it writes
to the transport are the encoded frame. `feedback` gives the feedback-flag
byte of each command code. -/
def send_cmd_ (feedback : Nat → Nat) (cmd argument : Nat) : List Nat :=
  encode (feedback cmd) cmd argument

/-! ## Command tracker, event translator and polling -/

/-- Modelled from the spec: the classes of inbound command codes that the Event
Translator tells apart (the code of `loop` and the numeric table, "codes per
datasheet numbering", are missing). -/
inductive InboundKind where
  | finished
  | ack
  | volume_report
  | equalizer_report
  | track_report
  | error
  | other
  deriving DecidableEq, Repr

/-- Modelled from the spec: the datasheet numbering the missing translation unit
relies on: the class of every inbound code, the feedback-flag byte of every
outbound command code, and the command codes of start, pause and stop. -/
structure Datasheet where
  kind : Nat → InboundKind
  feedback : Nat → Nat
  start_cmd : Nat
  pause_cmd : Nat
  stop_cmd : Nat

/-- A sample numbering on which the model can be evaluated: acknowledgement
`0x41`, start `0x0D`, pause `0x0E`, stop `0x16`, feedback always requested. -/
def Datasheet.sample : Datasheet where
  kind := fun code => if code = 0x41 then InboundKind.ack else InboundKind.other
  feedback := fun _ => 0x01
  start_cmd := 0x0D
  pause_cmd := 0x0E
  stop_cmd := 0x16

/-- Modelled from the spec: the playback transition recorded for a pending
acknowledgement (set / clear / none). -/
inductive PlaybackTransition where
  | set_playing
  | clear_playing
  | no_change
  deriving DecidableEq, Repr

/-- Modelled from the spec: the domain events raised by the Event Translator:
finished-playback (no payload), track-query (16-bit track), volume-query (low
argument byte), eq-query (the preset of the reported index, or the index as-is
when it is outside `0..5`). -/
inductive Event where
  | finished_playback
  | track_query (track : Nat)
  | volume_query (volume : Nat)
  | eq_query (preset : EqPreset ⊕ Nat)
  deriving DecidableEq

/-- Modelled from the spec: whether a PendingAck exists. The slot is the three
members `sent_cmd_`, `ack_set_is_playing_`, `ack_reset_is_playing_`; it is
empty when all three hold their initial values. -/
def DFPlayer.pending (s : DFPlayer) : Bool :=
  s.sent_cmd_ != 0 || s.ack_set_is_playing_ || s.ack_reset_is_playing_

/-- Modelled from the spec: `note_sent(command_code, sets_playing?,
clears_playing?)` of the Command Tracker: overwrites any previous PendingAck
unconditionally. `sent_cmd_` is a `uint8_t`. -/
def DFPlayer.note_sent (s : DFPlayer) (command_code : Nat)
    (sets_playing clears_playing : Bool) : DFPlayer :=
  { s with
    sent_cmd_ := command_code % 256
    ack_set_is_playing_ := sets_playing
    ack_reset_is_playing_ := clears_playing }

/-- Modelled from the spec: the transition recorded in the PendingAck slot. -/
def DFPlayer.recorded_transition (s : DFPlayer) : PlaybackTransition :=
  if s.ack_set_is_playing_ then PlaybackTransition.set_playing
  else if s.ack_reset_is_playing_ then PlaybackTransition.clear_playing
  else PlaybackTransition.no_change

/-- Modelled from the spec: clearing the PendingAck slot. -/
def DFPlayer.clear_pending (s : DFPlayer) : DFPlayer :=
  { s with
    sent_cmd_ := 0
    ack_set_is_playing_ := false
    ack_reset_is_playing_ := false }

/-- Modelled from the spec: `on_ack(received_code) -> Option<PlaybackTransition>`
of the Command Tracker: if the code is the generic acknowledgement and a
PendingAck exists, the recorded transition is returned and the slot cleared;
otherwise none is returned and the state is left untouched. -/
def DFPlayer.on_ack (kind : Nat → InboundKind) (s : DFPlayer) (received_code : Nat) :
    Option PlaybackTransition × DFPlayer :=
  if kind received_code = InboundKind.ack ∧ s.pending = true then
    (some s.recorded_transition, s.clear_pending)
  else
    (none, s)

/-- Modelled from the spec: applying a returned transition to the playback
flag. -/
def DFPlayer.apply_transition (s : DFPlayer) : Option PlaybackTransition → DFPlayer
  | some PlaybackTransition.set_playing => { s with is_playing_ := true }
  | some PlaybackTransition.clear_playing => { s with is_playing_ := false }
  | some PlaybackTransition.no_change => s
  | none => s

/-- Modelled from the spec: the Event Translator (part of the missing `loop`)
applied to one decoded Frame: the new state and the events raised.
Finished codes clear the playback flag and raise finished-playback; the generic
acknowledgement is delegated to `on_ack` and the returned transition applied;
volume and equalizer reports carry the low argument byte, the track report the
16-bit argument; error codes and unknown codes change nothing. -/
def DFPlayer.process_frame (kind : Nat → InboundKind) (s : DFPlayer) (f : Frame) :
    DFPlayer × List Event :=
  match kind f.command with
  | InboundKind.finished => ({ s with is_playing_ := false }, [Event.finished_playback])
  | InboundKind.ack =>
    let r := s.on_ack kind f.command
    (r.2.apply_transition r.1, [])
  | InboundKind.volume_report => (s, [Event.volume_query (arg_low f.argument)])
  | InboundKind.equalizer_report =>
    match EqReturn (arg_low f.argument) with
    | some preset => (s, [Event.eq_query (Sum.inl preset)])
    | none => (s, [Event.eq_query (Sum.inr (arg_low f.argument))])
  | InboundKind.track_report => (s, [Event.track_query f.argument])
  | InboundKind.error => (s, [])
  | InboundKind.other => (s, [])

/-- Modelled from the spec: the frame dispatch of the polling operation `loop`
(its code is missing): every result the reassembler yields in this tick is
taken in order; a decoded Frame goes through `process_frame`, an Invalid result
is discarded; events come out in the order their frames were decoded. -/
def DFPlayer.loop (kind : Nat → InboundKind) (s : DFPlayer) :
    List (Option Frame) → DFPlayer × List Event
  | [] => (s, [])
  | none :: rest => DFPlayer.loop kind s rest
  | some f :: rest =>
    let r := s.process_frame kind f
    let q := DFPlayer.loop kind r.1 rest
    (q.1, r.2 ++ q.2)

/-- Modelled from the spec: the operation `start()` (declared in the header, its
body in the missing translation unit): the frame of the start command is
written and `note_sent` records it as setting the playback flag. The result is
the new state and the bytes written. -/
def DFPlayer.start (d : Datasheet) (s : DFPlayer) : DFPlayer × List Nat :=
  (s.note_sent d.start_cmd true false, send_cmd_ d.feedback d.start_cmd 0)

/-- Modelled from the spec: the operation `pause()` (declared in the header, its
body in the missing translation unit): the frame of the pause command is
written and `note_sent` records it as clearing the playback flag. -/
def DFPlayer.pause (d : Datasheet) (s : DFPlayer) : DFPlayer × List Nat :=
  (s.note_sent d.pause_cmd false true, send_cmd_ d.feedback d.pause_cmd 0)

/-- Modelled from the spec: the operation `stop()` (declared in the header, its
body in the missing translation unit): as `pause()`, with the stop code. -/
def DFPlayer.stop (d : Datasheet) (s : DFPlayer) : DFPlayer × List Nat :=
  (s.note_sent d.stop_cmd false true, send_cmd_ d.feedback d.stop_cmd 0)

/-! ## Theorems -/

/-- The packing expression of the three-argument `send_cmd_`, in arithmetic. -/
theorem pack_eq (high low : Nat) :
    (((high &&& 0xFF) <<< 8) ||| (low &&& 0xFF)) % 65536 = (high % 256) * 256 + low % 256 := by
  have h1 : high &&& 0xFF = high % 256 := Nat.and_pow_two_sub_one_eq_mod high 8
  have h2 : low &&& 0xFF = low % 256 := Nat.and_pow_two_sub_one_eq_mod low 8
  have h3 : low % 256 < 2 ^ 8 := by omega
  have h4 := Nat.mul_add_lt_is_or h3 (high % 256)
  rw [h1, h2, Nat.shiftLeft_eq, Nat.mul_comm, ← h4]
  omega

/-- The checksum always fits 16 bits. -/
theorem checksum_lt (v l c f hi lo : Nat) : checksum v l c f hi lo < 65536 := by
  unfold checksum
  omega

/-- Decoding an encoded frame gives back the command and the argument. -/
theorem decode_encode (feedback c a : Nat) (hc : c < 256) (ha : a < 65536) :
    decode (encode feedback c a) = some ⟨c, feedback % 256, a⟩ := by
  have e1 : c % 256 = c := Nat.mod_eq_of_lt hc
  have hs := checksum_lt 0xFF 0x06 c (feedback % 256) (arg_high a) (arg_low a)
  have hsum : arg_high (checksum 0xFF 0x06 c (feedback % 256) (arg_high a) (arg_low a)) * 256
      + arg_low (checksum 0xFF 0x06 c (feedback % 256) (arg_high a) (arg_low a))
      = checksum 0xFF 0x06 c (feedback % 256) (arg_high a) (arg_low a) := by
    unfold arg_high arg_low at *
    omega
  have harg : arg_high a * 256 + arg_low a = a := by
    unfold arg_high arg_low
    omega
  simp only [encode, decode, e1]
  rw [if_pos ⟨trivial, trivial, trivial, trivial, hsum⟩, harg]

/-- Processing one acknowledgement frame: the recorded transition is applied
and the slot cleared (clearing an empty slot changes nothing). -/
theorem loop_ack (kind : Nat → InboundKind) (s : DFPlayer) (f : Frame)
    (hf : kind f.command = InboundKind.ack) :
    DFPlayer.loop kind s [some f] =
      (if s.pending = true then s.clear_pending.apply_transition (some s.recorded_transition)
        else s, []) := by
  simp only [DFPlayer.loop, DFPlayer.process_frame, hf, DFPlayer.on_ack, true_and,
    List.append_nil]
  by_cases hp : s.pending = true
  · simp [hp]
  · simp [hp, DFPlayer.apply_transition]


/-- C1: `is_playing()` returns exactly the playback flag `is_playing_` and leaves
every field of the state unchanged; `DFPlayerIsPlayingCondition.check` on a
parent in that state returns the same value for every argument pack. -/
theorem is_playing_reads_flag (s : DFPlayer) :
    (s.is_playing).1 = s.is_playing_ ∧
    (s.is_playing).2 = s ∧
    (s.is_playing).2.is_playing_ = s.is_playing_ ∧
    (s.is_playing).2.sent_cmd_ = s.sent_cmd_ ∧
    (s.is_playing).2.ack_set_is_playing_ = s.ack_set_is_playing_ ∧
    (s.is_playing).2.ack_reset_is_playing_ = s.ack_reset_is_playing_ ∧
    (s.is_playing).2.read_buffer_ = s.read_buffer_ ∧
    (s.is_playing).2.read_pos_ = s.read_pos_ ∧
    (∀ (Ts : Type) (x : Ts),
      (DFPlayerIsPlayingCondition.check s x).1 = s.is_playing_ ∧
      (DFPlayerIsPlayingCondition.check s x).2 = s) := by
  refine ⟨rfl, rfl, rfl, rfl, rfl, rfl, rfl, rfl, ?_⟩
  intro Ts x
  exact ⟨rfl, rfl⟩

/-- C2: the `EqPreset` to index correspondence is 0=NORMAL, 1=POP, 2=ROCK, 3=JAZZ,
4=CLASSIC, 5=BASS; the map is injective and its image is exactly `{0,..,5}`. -/
theorem eqPreset_index_correspondence :
    EqPreset.NORMAL.toNat = 0 ∧ EqPreset.POP.toNat = 1 ∧ EqPreset.ROCK.toNat = 2 ∧
    EqPreset.JAZZ.toNat = 3 ∧ EqPreset.CLASSIC.toNat = 4 ∧ EqPreset.BASS.toNat = 5 ∧
    Function.Injective EqPreset.toNat ∧
    (∀ n : Nat, (∃ p : EqPreset, p.toNat = n) ↔ n ≤ 5) ∧
    (∀ p : EqPreset, p ∈ EqPreset.all) := by
  refine ⟨rfl, rfl, rfl, rfl, rfl, rfl, ?_, ?_, ?_⟩
  · intro p q h
    cases p <;> cases q <;> first | rfl | (simp [EqPreset.toNat] at h)
  · intro n
    constructor
    · rintro ⟨p, rfl⟩
      cases p <;> simp [EqPreset.toNat]
    · intro h
      have h6 : n = 0 ∨ n = 1 ∨ n = 2 ∨ n = 3 ∨ n = 4 ∨ n = 5 := by omega
      rcases h6 with rfl | rfl | rfl | rfl | rfl | rfl
      · exact ⟨.NORMAL, rfl⟩
      · exact ⟨.POP, rfl⟩
      · exact ⟨.ROCK, rfl⟩
      · exact ⟨.JAZZ, rfl⟩
      · exact ⟨.CLASSIC, rfl⟩
      · exact ⟨.BASS, rfl⟩
  · intro p
    cases p <;> simp [EqPreset.all]

/-- C3: the read buffer capacity is 25, strictly more than two 10-byte frames
with 5 bytes of slack, and `read_buffer_` has exactly that many elements. -/
theorem read_buffer_capacity :
    DFPLAYER_READ_BUFFER_LENGTH = 25 ∧
    FRAME_LENGTH = 10 ∧
    2 * FRAME_LENGTH < DFPLAYER_READ_BUFFER_LENGTH ∧
    DFPLAYER_READ_BUFFER_LENGTH - 2 * FRAME_LENGTH = 5 ∧
    (∀ s : DFPlayer, s.read_buffer_.val.length = DFPLAYER_READ_BUFFER_LENGTH) := by
  refine ⟨rfl, rfl, by decide, by decide, ?_⟩
  intro s
  exact s.read_buffer_.property

/-- C7: the two equalizer enumerations describe the same six values: for every
index `i` in `0..5` the preset that `EqReturn` lists against report code `i` is
the preset whose `EqPreset` selector is `i`, and every preset's selector is
reported back as that preset. -/
theorem eqReturn_agrees_with_eqPreset :
    (∀ i : Fin 6, ∃ p : EqPreset, EqReturn i.val = some p ∧ p.toNat = i.val) ∧
    (∀ i : Fin 6, (EqReturn i.val).map EqPreset.toNat = some i.val) ∧
    (∀ p : EqPreset, EqReturn p.toNat = some p) := by
  refine ⟨?_, by decide, ?_⟩
  · intro i
    have h6 : i.val = 0 ∨ i.val = 1 ∨ i.val = 2 ∨ i.val = 3 ∨ i.val = 4 ∨ i.val = 5 := by
      omega
    rcases h6 with h | h | h | h | h | h <;> rw [h]
    · exact ⟨.NORMAL, rfl, rfl⟩
    · exact ⟨.POP, rfl, rfl⟩
    · exact ⟨.ROCK, rfl, rfl⟩
    · exact ⟨.JAZZ, rfl, rfl⟩
    · exact ⟨.CLASSIC, rfl, rfl⟩
    · exact ⟨.BASS, rfl, rfl⟩
  · intro p
    cases p <;> rfl

/-- C9: a freshly constructed engine reports `is_playing() = false`, has no
pending acknowledgement and an empty parser cursor below the buffer capacity. -/
theorem construct_initial_state (storage : CharArray DFPLAYER_READ_BUFFER_LENGTH) :
    ((DFPlayer.construct storage).is_playing).1 = false ∧
    (DFPlayer.construct storage).sent_cmd_ = 0 ∧
    (DFPlayer.construct storage).ack_set_is_playing_ = false ∧
    (DFPlayer.construct storage).ack_reset_is_playing_ = false ∧
    (DFPlayer.construct storage).read_pos_ = 0 ∧
    (DFPlayer.construct storage).read_pos_ < DFPLAYER_READ_BUFFER_LENGTH ∧
    DFPLAYER_READ_BUFFER_LENGTH = 25 := by
  refine ⟨rfl, rfl, rfl, rfl, rfl, ?_, rfl⟩
  show 0 < 25
  decide

/-- C4 (as stated, refuted): the header does not give the volume-query observers
an 8-bit payload nor the eq-query observers an `EqPreset` payload, and the
eq-query registration type differs from the type of its observer list. -/
theorem subscription_payloads_not_as_stated :
    ¬ (registration_payload HostEvent.finished_playback = PayloadType.no_payload ∧
       registration_payload HostEvent.track_query = PayloadType.uint16_t ∧
       registration_payload HostEvent.volume_query = PayloadType.uint8_t ∧
       (∀ v : Nat, (registration_payload HostEvent.volume_query).carries v = true → v ≤ 255) ∧
       registration_payload HostEvent.eq_query = PayloadType.EqPreset ∧
       (∀ e : HostEvent, registration_payload e = observer_list_payload e ∧
          registration_payload e = trigger_payload e)) := by
  intro h
  exact absurd h.2.2.1 (by decide)

/-- C4 (amended): finished-playback observers take no payload, track-query
observers a 16-bit track number, volume-query observers a 16-bit value (every
value `0..65535` is deliverable); for these three events the payload type
accepted at registration is that of the observer list and of the trigger. -/
theorem subscription_payloads :
    registration_payload HostEvent.finished_playback = PayloadType.no_payload ∧
    registration_payload HostEvent.track_query = PayloadType.uint16_t ∧
    registration_payload HostEvent.volume_query = PayloadType.uint16_t ∧
    (∀ v : Nat, (registration_payload HostEvent.volume_query).carries v = true ↔ v ≤ 65535) ∧
    (registration_payload HostEvent.finished_playback =
        observer_list_payload HostEvent.finished_playback ∧
      registration_payload HostEvent.finished_playback =
        trigger_payload HostEvent.finished_playback) ∧
    (registration_payload HostEvent.track_query = observer_list_payload HostEvent.track_query ∧
      registration_payload HostEvent.track_query = trigger_payload HostEvent.track_query) ∧
    (registration_payload HostEvent.volume_query = observer_list_payload HostEvent.volume_query ∧
      registration_payload HostEvent.volume_query = trigger_payload HostEvent.volume_query) := by
  refine ⟨rfl, rfl, rfl, ?_, ⟨rfl, rfl⟩, ⟨rfl, rfl⟩, ⟨rfl, rfl⟩⟩
  intro v
  simp only [registration_payload, PayloadType.carries, decide_eq_true_eq]
  omega

/-- C5: round-trip of the frame codec: for every one-byte command code `c` and
every 16-bit argument `a`, decoding the 10-byte frame that `send_cmd_(c, a)`
writes yields a valid Frame whose command is `c` and whose argument is `a`. -/
theorem decode_encode_roundtrip (feedback : Nat → Nat) (c a : Nat)
    (hc : c < 256) (ha : a < 65536) :
    (send_cmd_ feedback c a).length = FRAME_LENGTH ∧
    send_cmd_ feedback c a = encode (feedback c) c a ∧
    decode (send_cmd_ feedback c a) ≠ none ∧
    (∃ f : Frame, decode (send_cmd_ feedback c a) = some f ∧
      f.command = c ∧ f.argument = a) := by
  have h := decode_encode (feedback c) c a hc ha
  refine ⟨rfl, rfl, ?_, ?_⟩
  · unfold send_cmd_
    rw [h]
    exact Option.some_ne_none _
  · exact ⟨⟨c, feedback c % 256, a⟩, h, rfl, rfl⟩

/-- C5 at a concrete input: command `0x03`, argument `5`. -/
theorem decode_encode_roundtrip_witness :
    (3 < 256 ∧ 5 < 65536) ∧
    ((send_cmd_ (fun _ => 0) 3 5).length = FRAME_LENGTH ∧
     send_cmd_ (fun _ => 0) 3 5 = encode 0 3 5 ∧
     decode (send_cmd_ (fun _ => 0) 3 5) ≠ none ∧
     (∃ f : Frame, decode (send_cmd_ (fun _ => 0) 3 5) = some f ∧
       f.command = 3 ∧ f.argument = 5)) :=
  ⟨⟨by decide, by decide⟩, decode_encode_roundtrip (fun _ => 0) 3 5 (by decide) (by decide)⟩

/-- C6: acknowledgement classification: after `start()` a generic
acknowledgement frame leaves `is_playing()` true; after `pause()` it leaves it
false; with no command pending it changes nothing. -/
theorem ack_classification (d : Datasheet) (s : DFPlayer) (f : Frame)
    (hf : d.kind f.command = InboundKind.ack) :
    ((DFPlayer.loop d.kind (s.start d).1 [some f]).1.is_playing).1 = true ∧
    ((DFPlayer.loop d.kind (s.pause d).1 [some f]).1.is_playing).1 = false ∧
    (∀ (buf : CharArray DFPLAYER_READ_BUFFER_LENGTH) (pos : Nat) (playing : Bool),
      DFPlayer.loop d.kind ⟨0, buf, pos, playing, false, false⟩ [some f] =
        (⟨0, buf, pos, playing, false, false⟩, [])) := by
  refine ⟨?_, ?_, ?_⟩
  · rw [loop_ack d.kind _ f hf]
    simp [DFPlayer.start, DFPlayer.note_sent, DFPlayer.pending, DFPlayer.clear_pending,
      DFPlayer.recorded_transition, DFPlayer.apply_transition, DFPlayer.is_playing]
  · rw [loop_ack d.kind _ f hf]
    simp [DFPlayer.pause, DFPlayer.note_sent, DFPlayer.pending, DFPlayer.clear_pending,
      DFPlayer.recorded_transition, DFPlayer.apply_transition, DFPlayer.is_playing]
  · intro buf pos playing
    rw [loop_ack d.kind _ f hf]
    simp [DFPlayer.pending]

/-- C6 at a concrete input: a fresh engine, the sample numbering and the
acknowledgement frame with code `0x41`. -/
theorem ack_classification_witness :
    Datasheet.sample.kind (Frame.mk 0x41 0 0).command = InboundKind.ack ∧
    ((DFPlayer.loop Datasheet.sample.kind
        ((DFPlayer.construct ⟨List.replicate 25 0, rfl⟩).start Datasheet.sample).1
        [some (Frame.mk 0x41 0 0)]).1.is_playing).1 = true ∧
    ((DFPlayer.loop Datasheet.sample.kind
        ((DFPlayer.construct ⟨List.replicate 25 0, rfl⟩).pause Datasheet.sample).1
        [some (Frame.mk 0x41 0 0)]).1.is_playing).1 = false :=
  ⟨by decide,
   (ack_classification Datasheet.sample (DFPlayer.construct ⟨List.replicate 25 0, rfl⟩)
      (Frame.mk 0x41 0 0) (by decide)).1,
   (ack_classification Datasheet.sample (DFPlayer.construct ⟨List.replicate 25 0, rfl⟩)
      (Frame.mk 0x41 0 0) (by decide)).2.1⟩

/-- C8: the three-argument `send_cmd_(cmd, high, low)` calls the two-argument
`send_cmd_` exactly once, with the same `cmd` and the argument
`(high mod 256) * 256 + (low mod 256)`; that argument is a 16-bit value whose
high and low bytes are `high mod 256` and `low mod 256`; the packing is
injective on pairs of bytes and discards the bits above the low 8. -/
theorem send_cmd_high_low_packs (cmd high low : Nat) :
    send_cmd_high_low cmd high low = [⟨cmd, (high % 256) * 256 + low % 256⟩] ∧
    (send_cmd_high_low cmd high low).length = 1 ∧
    (high % 256) * 256 + low % 256 < 65536 ∧
    arg_high ((high % 256) * 256 + low % 256) = high % 256 ∧
    arg_low ((high % 256) * 256 + low % 256) = low % 256 ∧
    (∀ h l h2 l2 : Nat, h ≤ 255 → l ≤ 255 → h2 ≤ 255 → l2 ≤ 255 →
      send_cmd_high_low cmd h l = send_cmd_high_low cmd h2 l2 → h = h2 ∧ l = l2) ∧
    send_cmd_high_low cmd 0x1FF low = send_cmd_high_low cmd 0xFF low := by
  have hp : ∀ h l : Nat, send_cmd_high_low cmd h l = [⟨cmd, (h % 256) * 256 + l % 256⟩] := by
    intro h l
    simp only [send_cmd_high_low, pack_eq]
  refine ⟨hp high low, rfl, by omega, ?_, ?_, ?_, ?_⟩
  · unfold arg_high
    omega
  · unfold arg_low
    omega
  · intro h l h2 l2 b1 b2 b3 b4 heq
    rw [hp, hp] at heq
    simp only [List.cons.injEq, SendCmdCall.mk.injEq, true_and, and_true] at heq
    omega
  · rw [hp, hp]

/-- C8 at a concrete input: `high = 0x1FF`, `low = 0x134` pack to `0xFF34`. -/
theorem send_cmd_high_low_packs_witness :
    send_cmd_high_low 3 0x1FF 0x134 = [⟨3, 0xFF34⟩] :=
  (send_cmd_high_low_packs 3 0x1FF 0x134).1

/-- C10: the loop flag of the play actions selects exactly one engine
operation: `PlayFolderAction.play` invokes only `play_folder_loop(folder)` when
loop is true (whatever the file) and only `play_folder(folder, file)` when it
is false; `PlayFileAction.play` invokes only `play_file_loop(file)` when loop
is true and only `play_file(file)` when it is false. -/
theorem play_actions_select_one_operation (Ts : Type) (x : Ts) :
    (∀ a : PlayFolderAction Ts, a.loop_ x = true →
      a.play x = [EngineCall.play_folder_loop (a.folder_ x)]) ∧
    (∀ a : PlayFolderAction Ts, a.loop_ x = false →
      a.play x = [EngineCall.play_folder (a.folder_ x) (a.file_ x)]) ∧
    (∀ a b : PlayFolderAction Ts, a.loop_ x = true → b.loop_ x = true →
      a.folder_ x = b.folder_ x → a.play x = b.play x) ∧
    (∀ a : PlayFileAction Ts, a.loop_ x = true →
      a.play x = [EngineCall.play_file_loop (a.file_ x)]) ∧
    (∀ a : PlayFileAction Ts, a.loop_ x = false →
      a.play x = [EngineCall.play_file (a.file_ x)]) := by
  refine ⟨?_, ?_, ?_, ?_, ?_⟩
  · intro a h
    simp [PlayFolderAction.play, h]
  · intro a h
    simp [PlayFolderAction.play, h]
  · intro a b ha hb hf
    simp [PlayFolderAction.play, ha, hb, hf]
  · intro a h
    simp [PlayFileAction.play, h]
  · intro a h
    simp [PlayFileAction.play, h]

end dfplayer
end esphome
